import Mathlib

/-!
Verification of the goat-monitor RPC polling and aggregation core
(`monitoring/rpc/client.go`, `monitoring/main.go`, `collector/collector.go`)
as a shallow embedding in Lean 4.

Modelling choices:
* JSON documents are the inductive `Json` below; JSON numbers are modelled
  as integers (every numeral appearing in this program is integral).
* The HTTP transport is abstracted as a `Node`: a function from the JSON-RPC
  method name to the outcome of the HTTP exchange.  A response body is
  represented by its JSON parse result (`none` = the bytes are not valid
  JSON), since `call` only ever consumes the body through `json.Unmarshal`.
* Go's untyped `error` values are classified into the spec's taxonomy
  (`transport` / `protocol` / `rpc` / `decode`) at the source sites that
  produce them; message strings keep the `fmt.Errorf` format text.
* `math/big` semantics: `Int.SetString(s, 16)` accepts an optional leading
  sign followed by one or more case-insensitive hex digits and fails iff the
  whole string is not of that shape; `Int.Uint64()` returns the low 64 bits
  of the magnitude (`low64(x.abs)`).
* Metric values are modelled before the `float64` conversion; the
  `/health` timestamp and endpoint echo fields (wall clock, configuration)
  are omitted.
-/

namespace Goat

/-- A JSON document.  Numbers are modelled as integers. -/
inductive Json where
  | null : Json
  | bool (b : Bool) : Json
  | num (n : Int) : Json
  | str (s : String) : Json
  | arr (elems : List Json) : Json
  | obj (fields : List (String × Json)) : Json

/-- The error taxonomy of the spec, tagging each `error` value the Go code
produces with the site class that produced it. -/
inductive RPCFailure where
  | transport (msg : String) : RPCFailure
  | protocol (msg : String) : RPCFailure
  | rpc (code : Int) (message : String) : RPCFailure
  | decode (msg : String) : RPCFailure
deriving DecidableEq, Repr

/-- `SyncProgress` from `client.go`: the three sync-status fields. -/
structure SyncProgress where
  startingBlock : Nat
  currentBlock : Nat
  highestBlock : Nat
deriving DecidableEq, Repr

/-- Value of one hex digit, case-insensitive (`math/big` digit table,
restricted to base 16). -/
def hexDigitVal (c : Char) : Option Nat :=
  if '0' ≤ c ∧ c ≤ '9' then some (c.toNat - '0'.toNat)
  else if 'a' ≤ c ∧ c ≤ 'f' then some (c.toNat - 'a'.toNat + 10)
  else if 'A' ≤ c ∧ c ≤ 'F' then some (c.toNat - 'A'.toNat + 10)
  else none

/-- `c` is a hexadecimal digit. -/
def isHexDigitChar (c : Char) : Bool :=
  (hexDigitVal c).isSome

/-- Horner accumulation of hex digits, most significant first; `none` on the
first character that is not a hex digit (`nat.scan`, base 16). -/
def hexAccum (acc : Nat) : List Char → Option Nat
  | [] => some acc
  | c :: cs =>
    match hexDigitVal c with
    | some d => hexAccum (16 * acc + d) cs
    | none => none

/-- Magnitude scanned from a digit string: at least one digit, all digits
valid (`nat.scan` with base 16 followed by the entire-content check). -/
def hexMagnitude (cs : List Char) : Option Nat :=
  if cs.isEmpty then none else hexAccum 0 cs

/-- Go `big.Int.SetString(s, 16)`: `scanSign` consumes one optional leading
sign, then `nat.scan` reads the digits; `none` when no digit was read or the
whole string was not consumed. -/
def bigIntSetString16 (cs : List Char) : Option Int :=
  match cs with
  | [] => none
  | c :: rest =>
    if c = '+' then (hexMagnitude rest).map Int.ofNat
    else if c = '-' then (hexMagnitude rest).map (fun m => -(Int.ofNat m))
    else (hexMagnitude (c :: rest)).map Int.ofNat

/-- Go `big.Int.Uint64()`: the low 64 bits of the magnitude (`low64(x.abs)`). -/
def bigIntUint64 (v : Int) : Nat :=
  v.natAbs % 2 ^ 64

/-- `stripHexPrefix` from `client.go`, on the character list: removes a
leading `"0x"` or `"0X"` (`len(s) >= 2 && (s[:2] == "0x" || s[:2] == "0X")`). -/
def stripHexPrefixChars (cs : List Char) : List Char :=
  match cs with
  | c0 :: c1 :: rest =>
    if c0 = '0' ∧ (c1 = 'x' ∨ c1 = 'X') then rest else c0 :: c1 :: rest
  | _ => cs

/-- `parseHexUint64` from `client.go`: strip the optional prefix, run
`big.Int.SetString(·, 16)`, fail with the decode error `"invalid hex value"`
when that fails, otherwise return `big.Int.Uint64()` of the parsed value. -/
def parseHexUint64 (hex : String) : Except RPCFailure Nat :=
  match bigIntSetString16 (stripHexPrefixChars hex.data) with
  | none => .error (.decode ("invalid hex value: " ++ hex))
  | some v => .ok (bigIntUint64 v)

/-- Outcome of reading the response body (`io.ReadAll`): a read error, or
the body bytes represented by their JSON parse result (`none` = the bytes
are not valid JSON). -/
inductive BodyResult where
  | readError (msg : String) : BodyResult
  | content (parsed : Option Json) : BodyResult

/-- Outcome of the HTTP POST (`httpClient.Post`): a network-level error
(connection refused, timeout, ...), or a status code with a body. -/
inductive HTTPOutcome where
  | postError (msg : String) : HTTPOutcome
  | response (status : Nat) (body : BodyResult) : HTTPOutcome

/-- The RPC endpoint, abstracted as the HTTP exchange outcome it yields for
each JSON-RPC method name.  (Every request the client sends is `{jsonrpc:
"2.0", method, params: [], id: 1}`, so the method name determines the
request.) -/
structure Node where
  respond : String → HTTPOutcome

/-- The decoded `jsonRPCError` object of a response envelope. -/
structure JsonRPCError where
  code : Int
  message : String

/-- The decoded `jsonRPCResponse` envelope.  `result` is the raw
`json.RawMessage` (`none` when the `result` key is absent; `some .null`
when it is present and null). -/
structure JsonRPCResponse where
  jsonrpc : String
  result : Option Json
  error : Option JsonRPCError
  id : Int

/-- Last binding of key `k` in an association list (Go's JSON decoder lets
a later duplicate key overwrite an earlier one). -/
def lookupLast (l : List (String × Json)) (k : String) : Option Json :=
  l.foldl (fun acc p => if p.1 = k then some p.2 else acc) none

/-- `json.Unmarshal` of a JSON value into a Go `int` field: integral number,
or null (a no-op leaving the zero value), or absent. -/
def unmarshalIntField (v : Option Json) : Option Int :=
  match v with
  | none => some 0
  | some (.num n) => some n
  | some .null => some 0
  | some _ => none

/-- `json.Unmarshal` of a JSON value into a Go `string` field: string, or
null (a no-op leaving the zero value), or absent. -/
def unmarshalStringField (v : Option Json) : Option String :=
  match v with
  | none => some ""
  | some (.str s) => some s
  | some .null => some ""
  | some _ => none

/-- `json.Unmarshal` of a JSON value into `*jsonRPCError`: null or absent
leaves the nil pointer; an object decodes `code` and `message`; any other
shape is an unmarshal error (`none`). -/
def unmarshalErrorField (v : Option Json) : Option (Option JsonRPCError) :=
  match v with
  | none => some none
  | some .null => some none
  | some (.obj fields) =>
    match unmarshalIntField (lookupLast fields "code"),
        unmarshalStringField (lookupLast fields "message") with
    | some c, some m => some (some ⟨c, m⟩)
    | _, _ => none
  | some _ => none

/-- `json.Unmarshal(respBody, &jsonRPCResponse)`: the body must be a JSON
object; known keys are decoded by field type (unknown keys are ignored);
`result` is captured raw. -/
def unmarshalEnvelope (j : Json) : Option JsonRPCResponse :=
  match j with
  | .obj fields =>
    match unmarshalStringField (lookupLast fields "jsonrpc"),
        unmarshalErrorField (lookupLast fields "error"),
        unmarshalIntField (lookupLast fields "id") with
    | some ver, some err, some i =>
      some ⟨ver, lookupLast fields "result", err, i⟩
    | _, _, _ => none
  | _ => none

/-- `call` from `client.go`, for a fixed node and method name: fail on the
POST error, then on the body-read error, then on a status other than 200
(`resp.StatusCode != http.StatusOK`), then on an unparseable envelope, then
on a non-null envelope `error`; otherwise return the raw `result`. -/
def call (node : Node) (method : String) : Except RPCFailure (Option Json) :=
  match node.respond method with
  | .postError msg => .error (.transport ("RPC request: " ++ msg))
  | .response status body =>
    match body with
    | .readError msg => .error (.transport ("read response body: " ++ msg))
    | .content parsed =>
      if status ≠ 200 then
        .error (.transport ("RPC returned HTTP " ++ toString status))
      else
        match parsed with
        | none => .error (.protocol "unmarshal response: invalid JSON")
        | some j =>
          match unmarshalEnvelope j with
          | none => .error (.protocol "unmarshal response: type error")
          | some env =>
            match env.error with
            | some e => .error (.rpc e.code e.message)
            | none => .ok env.result

/-- `json.Unmarshal` of a raw result into a Go `string` variable:
errors on an absent result (`nil` RawMessage) and on a non-string,
non-null JSON value; null leaves the zero value `""`. -/
def unmarshalStringResult (result : Option Json) : Except String String :=
  match result with
  | none => .error "unexpected end of JSON input"
  | some (.str s) => .ok s
  | some .null => .ok ""
  | some _ => .error "cannot unmarshal into string"

/-- `GetBlockNumber` from `client.go`: call `eth_blockNumber`, unmarshal the
result as a string, decode it as hex. -/
def GetBlockNumber (node : Node) : Except RPCFailure Nat :=
  match call node "eth_blockNumber" with
  | .error e => .error e
  | .ok result =>
    match unmarshalStringResult result with
    | .error m => .error (.decode ("unmarshal block number: " ++ m))
    | .ok hexBlock => parseHexUint64 hexBlock

/-- `GetChainID` from `client.go`: call `eth_chainId`, unmarshal the result
as a string, decode it as hex. -/
def GetChainID (node : Node) : Except RPCFailure Nat :=
  match call node "eth_chainId" with
  | .error e => .error e
  | .ok result =>
    match unmarshalStringResult result with
    | .error m => .error (.decode ("unmarshal chain id: " ++ m))
    | .ok hexChainID => parseHexUint64 hexChainID

/-- `json.Unmarshal` of a raw result into a Go `bool` variable: succeeds
(returning the variable's final value) iff the result is present and is a
boolean or null (null is a no-op leaving `false`). -/
def unmarshalBoolResult (result : Option Json) : Option Bool :=
  match result with
  | some (.bool b) => some b
  | some .null => some false
  | _ => none

/-- One JSON object value decoded into a `map[string]string` entry: string,
or null (stored as the zero value `""`). -/
def stringMapValue (v : Json) : Option String :=
  match v with
  | .str s => some s
  | .null => some ""
  | _ => none

/-- The `map[string]string` built from the fields of a decoded JSON object
(assuming every value decoded successfully). -/
def decodedStringMap (fields : List (String × Json)) : List (String × String) :=
  fields.map (fun p => (p.1, (stringMapValue p.2).getD ""))

/-- `json.Unmarshal` of a raw result into `map[string]string`: an object
whose values are all strings (or null), or null (a no-op leaving the nil
map). -/
def unmarshalStringMapResult (result : Option Json) : Option (List (String × String)) :=
  match result with
  | some (.obj fields) =>
    if fields.all (fun p => (stringMapValue p.2).isSome) then
      some (decodedStringMap fields)
    else none
  | some .null => some []
  | _ => none

/-- Last binding of key `k` in the decoded string map (Go map semantics:
later duplicate JSON keys overwrite earlier ones). -/
def mapLookupLast (l : List (String × String)) (k : String) : Option String :=
  l.foldl (fun acc p => if p.1 = k then some p.2 else acc) none

/-- `progress.X, _ = parseHexUint64(v)` from `GetSyncStatus`: the decode
error is discarded, and on error `parseHexUint64` returned 0. -/
def parseHexOrZero (v : String) : Nat :=
  match parseHexUint64 v with
  | .ok n => n
  | .error _ => 0

/-- `if v, ok := rawProgress[k]; ok { progress.X, _ = parseHexUint64(v) }`:
an absent key leaves the field at its zero value. -/
def syncFieldValue (m : List (String × String)) (k : String) : Nat :=
  match mapLookupLast m k with
  | some v => parseHexOrZero v
  | none => 0

/-- `GetSyncStatus` from `client.go`: call `eth_syncing`; if the result
unmarshals as a boolean, report not syncing; otherwise unmarshal it as a
`map[string]string` and build a `SyncProgress` from the three well-known
keys, each decoded best-effort (absent key, or failed hex decode, gives 0). -/
def GetSyncStatus (node : Node) : Except RPCFailure (Bool × Option SyncProgress) :=
  match call node "eth_syncing" with
  | .error e => .error e
  | .ok result =>
    match unmarshalBoolResult result with
    | some _ => .ok (false, none)
    | none =>
      match unmarshalStringMapResult result with
      | none => .error (.decode "unmarshal sync progress")
      | some rawProgress =>
        let progress : SyncProgress :=
          { startingBlock := syncFieldValue rawProgress "startingBlock"
            currentBlock := syncFieldValue rawProgress "currentBlock"
            highestBlock := syncFieldValue rawProgress "highestBlock" }
        .ok (true, some progress)

/-- Rendering of a failure as the Go error string it wraps
(`fmt.Errorf("RPC error %d: %s", ...)` for the remote-error site; the other
sites carry their message through). -/
def failureText : RPCFailure → String
  | .transport m => m
  | .protocol m => m
  | .rpc c m => "RPC error " ++ toString c ++ ": " ++ m
  | .decode m => m

/-- The four gauge values sent by `GoatCollector.Collect`, at their integer
values before the `float64` conversion (`up` and `syncVal` are the literal
0/1 gauges of the source). -/
structure CollectOutput where
  blockHeight : Nat
  chainID : Nat
  syncVal : Nat
  up : Nat
deriving DecidableEq, Repr

/-- `GoatCollector.Collect` from `collector.go`: start with `up = 1`; fetch
block height, chain id and sync status in that order; each failure sets
`up = 0` and leaves the fetched variable at its zero value (the getters
return 0 / false alongside the error); emit the four gauges. -/
def Collect (node : Node) : CollectOutput :=
  let up0 : Nat := 1
  let br := GetBlockNumber node
  let block : Nat := match br with | .ok v => v | .error _ => 0
  let up1 : Nat := match br with | .ok _ => up0 | .error _ => 0
  let cr := GetChainID node
  let chain : Nat := match cr with | .ok v => v | .error _ => 0
  let up2 : Nat := match cr with | .ok _ => up1 | .error _ => 0
  let sr := GetSyncStatus node
  let isSyncing : Bool := match sr with | .ok (s, _) => s | .error _ => false
  let up3 : Nat := match sr with | .ok _ => up2 | .error _ => 0
  let syncVal : Nat := if isSyncing then 1 else 0
  { blockHeight := block, chainID := chain, syncVal := syncVal, up := up3 }

/-- The `healthResponse` fields computed by `healthHandler` (the endpoint
echo and wall-clock timestamp are omitted). -/
structure HealthResponse where
  status : String
  blockHeight : Nat
  chainID : Nat
  syncing : Bool
  syncProgress : Option SyncProgress
  errorMsg : String
deriving DecidableEq, Repr

/-- `healthHandler` from `main.go`: start with status `"ok"`; fetch block
height, chain id and sync status in that order; each failure flips the
status to `"degraded"` and appends `"<field>: <err>"` to the error string
(separated by `"; "`); each fetched field keeps the getter's returned value
(the zero value on failure). -/
def healthHandler (node : Node) : HealthResponse :=
  let br := GetBlockNumber node
  let status1 : String := match br with | .ok _ => "ok" | .error _ => "degraded"
  let err1 : String :=
    match br with
    | .ok _ => ""
    | .error e => "block number: " ++ failureText e
  let block : Nat := match br with | .ok v => v | .error _ => 0
  let cr := GetChainID node
  let status2 : String := match cr with | .ok _ => status1 | .error _ => "degraded"
  let err2 : String :=
    match cr with
    | .ok _ => err1
    | .error e =>
      (if err1 ≠ "" then err1 ++ "; " else err1) ++ ("chain id: " ++ failureText e)
  let chainID : Nat := match cr with | .ok v => v | .error _ => 0
  let sr := GetSyncStatus node
  let status3 : String := match sr with | .ok _ => status2 | .error _ => "degraded"
  let err3 : String :=
    match sr with
    | .ok _ => err2
    | .error e =>
      (if err2 ≠ "" then err2 ++ "; " else err2) ++ ("sync status: " ++ failureText e)
  let syncing : Bool := match sr with | .ok (s, _) => s | .error _ => false
  let progress : Option SyncProgress := match sr with | .ok (_, p) => p | .error _ => none
  { status := status3, blockHeight := block, chainID := chainID
    , syncing := syncing, syncProgress := progress, errorMsg := err3 }

/-- The spec's `perFieldErrors` sequence, read off the three error-append
sites of `healthHandler` (one `(field, error message)` record per failing
call, in the fixed call order). -/
def perFieldErrors (node : Node) : List (String × String) :=
  (match GetBlockNumber node with
   | .error e => [("block number", failureText e)]
   | .ok _ => []) ++
  (match GetChainID node with
   | .error e => [("chain id", failureText e)]
   | .ok _ => []) ++
  (match GetSyncStatus node with
   | .error e => [("sync status", failureText e)]
   | .ok _ => [])

/-- The lowercase hex character of a digit value. -/
def hexChar (d : Nat) : Char :=
  if d < 10 then Char.ofNat ('0'.toNat + d) else Char.ofNat ('a'.toNat + (d - 10))

/-- Encoding of an unsigned integer as lowercase hex without leading zeros
(the spec's reference encoding for the round-trip property). -/
def toHexString (n : Nat) : String :=
  if n = 0 then "0"
  else ⟨((Nat.digits 16 n).map hexChar).reverse⟩

/-- Characterisation of the strings accepted by `big.Int.SetString(·, 16)`:
an optional leading sign followed by one or more hex digits. -/
def validBigIntHex16 (cs : List Char) : Bool :=
  match cs with
  | [] => false
  | c :: rest =>
    if c = '+' ∨ c = '-' then !rest.isEmpty && rest.all isHexDigitChar
    else (c :: rest).all isHexDigitChar

/-- `call` ended in a transport-class failure. -/
def isTransportFailure {α : Type} : Except RPCFailure α → Bool
  | .error (.transport _) => true
  | _ => false

/-- The HTTP roundtrip itself failed as the source judges it: the POST
errored, the body read errored, or the status is not exactly 200. -/
def httpRoundtripFailed : HTTPOutcome → Bool
  | .postError _ => true
  | .response _ (.readError _) => true
  | .response status (.content _) => status != 200

/-- The getter call succeeded. -/
def callSucceeded {α : Type} : Except RPCFailure α → Bool
  | .ok _ => true
  | .error _ => false

/-! ### Concrete nodes used to instantiate the theorems -/

/-- A well-formed JSON-RPC success envelope around `result`. -/
def envelopeWith (result : Json) : Json :=
  .obj [("jsonrpc", .str "2.0"), ("result", result), ("id", .num 1)]

/-- An HTTP 200 exchange whose body is a success envelope around `result`. -/
def okBody (result : Json) : HTTPOutcome :=
  .response 200 (.content (some (envelopeWith result)))

/-- A node on which all three calls succeed: block `0x2a`, chain `0x929`,
not syncing. -/
def allOkNode : Node :=
  ⟨fun m =>
    if m = "eth_blockNumber" then okBody (.str "0x2a")
    else if m = "eth_chainId" then okBody (.str "0x929")
    else okBody (.bool false)⟩

/-- A node on which only the block-height call fails (HTTP 500). -/
def blockFailNode : Node :=
  ⟨fun m =>
    if m = "eth_blockNumber" then .response 500 (.content none)
    else if m = "eth_chainId" then okBody (.str "0x929")
    else okBody (.bool false)⟩

/-- A node on which all three calls fail (HTTP 500 on every method). -/
def allFailNode : Node :=
  ⟨fun _ => .response 500 (.content none)⟩

/-- A node whose `eth_syncing` result is the bare boolean `true`. -/
def boolTrueNode : Node :=
  ⟨fun _ => okBody (.bool true)⟩

/-- A node whose `eth_syncing` result is `{"currentBlock": "0x5"}`. -/
def syncObjNode : Node :=
  ⟨fun _ => okBody (.obj [("currentBlock", .str "0x5")])⟩

/-- A node whose `eth_syncing` result is an object all of whose fields hold
malformed hex. -/
def badHexNode : Node :=
  ⟨fun _ => okBody (.obj [("startingBlock", .str "zz"), ("currentBlock", .str "zz"),
    ("highestBlock", .str "zz")])⟩

/-- A node answering HTTP 201 with a perfectly well-formed envelope. -/
def status201Node : Node :=
  ⟨fun _ => .response 201 (.content (some (envelopeWith (.str "0x2a"))))⟩

/-- A node answering HTTP 200 with a body that is not valid JSON. -/
def protocolNode : Node :=
  ⟨fun _ => .response 200 (.content none)⟩

/-- An envelope carrying both a populated `result` and a non-null `error`. -/
def bothJson : Json :=
  .obj [("result", .str "0x1"),
    ("error", .obj [("code", .num (-32000)), ("message", .str "boom")])]

/-- A node answering HTTP 200 with `bothJson`. -/
def bothNode : Node :=
  ⟨fun _ => .response 200 (.content (some bothJson))⟩

/-! ### Correctness of the hex decoder on the reference encoding -/

lemma hexDigitVal_hexChar : ∀ d : Nat, d < 16 → hexDigitVal (hexChar d) = some d := by
  decide

lemma hexChar_not_special :
    ∀ d : Nat, d < 16 →
      hexChar d ≠ 'x' ∧ hexChar d ≠ 'X' ∧ hexChar d ≠ '+' ∧ hexChar d ≠ '-' := by
  decide

lemma hexAccum_append (l1 l2 : List Char) (acc : Nat) :
    hexAccum acc (l1 ++ l2) = (hexAccum acc l1).bind (fun a => hexAccum a l2) := by
  induction l1 generalizing acc with
  | nil => rfl
  | cons c cs ih =>
    simp only [List.cons_append, hexAccum]
    cases h : hexDigitVal c with
    | none => rfl
    | some d => simpa using ih _

lemma hexAccum_digits (ds : List Nat) (hd : ∀ d ∈ ds, d < 16) (acc : Nat) :
    hexAccum acc ((ds.map hexChar).reverse)
      = some (acc * 16 ^ ds.length + Nat.ofDigits 16 ds) := by
  induction ds generalizing acc with
  | nil => simp [hexAccum, Nat.ofDigits_nil]
  | cons d ds ih =>
    have hd16 : d < 16 := hd d (by simp)
    have hds : ∀ x ∈ ds, x < 16 := fun x hx => hd x (by simp [hx])
    simp only [List.map_cons, List.reverse_cons, hexAccum_append, ih hds]
    simp only [Option.some_bind, hexAccum, hexDigitVal_hexChar d hd16,
      Nat.ofDigits_cons, List.length_cons, Option.some.injEq]
    ring

lemma hexMagnitude_toHex (n : Nat) (hn : n ≠ 0) :
    hexMagnitude (((Nat.digits 16 n).map hexChar).reverse) = some n := by
  have hne : Nat.digits 16 n ≠ [] := Nat.digits_ne_nil_iff_ne_zero.mpr hn
  have hlt : ∀ d ∈ Nat.digits 16 n, d < 16 := fun d hd =>
    Nat.digits_lt_base (by norm_num) hd
  have hacc := hexAccum_digits (Nat.digits 16 n) hlt 0
  rw [Nat.ofDigits_digits] at hacc
  have hlne : (((Nat.digits 16 n).map hexChar).reverse).isEmpty = false := by
    simp [List.isEmpty_iff, hne]
  rw [hexMagnitude, hlne]
  simpa using hacc

lemma head_of_toHex (n : Nat) (c : Char) (cs : List Char)
    (hl : ((Nat.digits 16 n).map hexChar).reverse = c :: cs) :
    ∃ d : Nat, d < 16 ∧ hexChar d = c := by
  have hc : c ∈ ((Nat.digits 16 n).map hexChar).reverse := by
    rw [hl]; exact List.mem_cons_self c cs
  rw [List.mem_reverse] at hc
  rcases List.mem_map.mp hc with ⟨d, hd, hdc⟩
  exact ⟨d, Nat.digits_lt_base (by norm_num) hd, hdc⟩

lemma second_of_toHex (n : Nat) (c0 c1 : Char) (cs : List Char)
    (hl : ((Nat.digits 16 n).map hexChar).reverse = c0 :: c1 :: cs) :
    ∃ d : Nat, d < 16 ∧ hexChar d = c1 := by
  have hc : c1 ∈ ((Nat.digits 16 n).map hexChar).reverse := by
    rw [hl]; simp
  rw [List.mem_reverse] at hc
  rcases List.mem_map.mp hc with ⟨d, hd, hdc⟩
  exact ⟨d, Nat.digits_lt_base (by norm_num) hd, hdc⟩

lemma strip_toHex_eq_self (n : Nat) :
    stripHexPrefixChars (((Nat.digits 16 n).map hexChar).reverse)
      = ((Nat.digits 16 n).map hexChar).reverse := by
  cases hl : ((Nat.digits 16 n).map hexChar).reverse with
  | nil => rfl
  | cons c0 tl =>
    cases htl : tl with
    | nil => rfl
    | cons c1 rest =>
      rcases second_of_toHex n c0 c1 rest (by rw [hl, htl]) with ⟨d, hd16, hdc⟩
      rcases hexChar_not_special d hd16 with ⟨hx, hX, _, _⟩
      rw [stripHexPrefixChars, if_neg]
      rintro ⟨-, h1 | h1⟩
      · exact hx (hdc.trans h1)
      · exact hX (hdc.trans h1)

lemma bigIntSetString16_toHex (n : Nat) (hn : n ≠ 0) :
    bigIntSetString16 (((Nat.digits 16 n).map hexChar).reverse) = some (n : Int) := by
  cases hl : ((Nat.digits 16 n).map hexChar).reverse with
  | nil =>
    exfalso
    have hne : Nat.digits 16 n ≠ [] := Nat.digits_ne_nil_iff_ne_zero.mpr hn
    simp at hl
    exact hne hl
  | cons c tl =>
    rcases head_of_toHex n c tl hl with ⟨d, hd16, hdc⟩
    rcases hexChar_not_special d hd16 with ⟨_, _, hplus, hminus⟩
    have hmag := hexMagnitude_toHex n hn
    rw [hl] at hmag
    rw [bigIntSetString16, if_neg (fun h => hplus (hdc.trans h)),
      if_neg (fun h => hminus (hdc.trans h)), hmag]
    rfl

/-- `parseHexUint64` decodes the reference encoding of any `n : Nat` (with
or without a prefix) to the low 64 bits of `n`. -/
lemma parseHexUint64_toHexString (n : Nat) :
    parseHexUint64 (toHexString n) = .ok (n % 2 ^ 64) ∧
    parseHexUint64 ("0x" ++ toHexString n) = .ok (n % 2 ^ 64) ∧
    parseHexUint64 ("0X" ++ toHexString n) = .ok (n % 2 ^ 64) := by
  by_cases hn : n = 0
  · subst hn
    refine ⟨rfl, rfl, rfl⟩
  · have hlow : ("0x" ++ toHexString n).data
        = '0' :: 'x' :: ((Nat.digits 16 n).map hexChar).reverse := by
      simp [toHexString, hn]
    have hup : ("0X" ++ toHexString n).data
        = '0' :: 'X' :: ((Nat.digits 16 n).map hexChar).reverse := by
      simp [toHexString, hn]
    have hdata : (toHexString n).data = ((Nat.digits 16 n).map hexChar).reverse := by
      simp [toHexString, hn]
    have hstrip := strip_toHex_eq_self n
    have hset := bigIntSetString16_toHex n hn
    refine ⟨?_, ?_, ?_⟩
    · rw [parseHexUint64, hdata, hstrip, hset]
      simp [bigIntUint64]
    · rw [parseHexUint64, hlow]
      rw [show stripHexPrefixChars ('0' :: 'x' :: ((Nat.digits 16 n).map hexChar).reverse)
          = ((Nat.digits 16 n).map hexChar).reverse from rfl, hset]
      simp [bigIntUint64]
    · rw [parseHexUint64, hup]
      rw [show stripHexPrefixChars ('0' :: 'X' :: ((Nat.digits 16 n).map hexChar).reverse)
          = ((Nat.digits 16 n).map hexChar).reverse from rfl, hset]
      simp [bigIntUint64]

/-! ### Characterisation of accepted inputs -/

lemma hexAccum_isSome (cs : List Char) (acc : Nat) :
    (hexAccum acc cs).isSome = cs.all isHexDigitChar := by
  induction cs generalizing acc with
  | nil => simp [hexAccum]
  | cons c cs ih =>
    simp only [hexAccum, List.all_cons]
    cases h : hexDigitVal c with
    | none => simp [isHexDigitChar, h]
    | some d => simp [isHexDigitChar, h, ih]

lemma hexMagnitude_isSome (cs : List Char) :
    (hexMagnitude cs).isSome = (!cs.isEmpty && cs.all isHexDigitChar) := by
  cases cs with
  | nil => rfl
  | cons c cs => simp [hexMagnitude, hexAccum_isSome]

lemma bigIntSetString16_isSome (cs : List Char) :
    (bigIntSetString16 cs).isSome = validBigIntHex16 cs := by
  have hmap : ∀ (l : List Char) (f : Nat → Int),
      ((hexMagnitude l).map f).isSome = (hexMagnitude l).isSome := by
    intro l f
    cases hexMagnitude l <;> simp
  cases cs with
  | nil => rfl
  | cons c rest =>
    rw [bigIntSetString16, validBigIntHex16]
    by_cases hp : c = '+'
    · rw [if_pos hp, if_pos (Or.inl hp), hmap, hexMagnitude_isSome]
    · by_cases hm : c = '-'
      · rw [if_neg hp, if_pos hm, if_pos (Or.inr hm), hmap, hexMagnitude_isSome]
      · rw [if_neg hp, if_neg hm, if_neg (by tauto), hmap, hexMagnitude_isSome]
        simp

/-! ### Claim theorems -/

/-- Claim C2, counterexample: `0x10000000000000000` is `2^64`, which exceeds
`2^64 - 1`, yet `parseHexUint64` does not fail with a decode error — it
silently wraps to the low 64 bits and returns `0`. -/
theorem c2_counterexample :
    2 ^ 64 - 1 < (0x10000000000000000 : Nat) ∧
    parseHexUint64 "0x10000000000000000" = .ok 0 :=
  ⟨by norm_num, rfl⟩

/-- Claim C2 as amended: for every value exceeding `2^64 - 1`, the decoder
succeeds and silently truncates, returning the value modulo `2^64` (which
differs from the value) instead of failing. -/
theorem c2_overflow_truncates (n : Nat) (h : 2 ^ 64 ≤ n) :
    parseHexUint64 (toHexString n) = .ok (n % 2 ^ 64) ∧ n % 2 ^ 64 ≠ n := by
  refine ⟨(parseHexUint64_toHexString n).1, fun heq => ?_⟩
  have hlt : n % 2 ^ 64 < 2 ^ 64 := Nat.mod_lt n (by norm_num)
  rw [heq] at hlt
  exact absurd h (not_le_of_lt hlt)

/-- Witness for the amended claim C2, at `n = 2^64`. -/
theorem c2_witness :
    2 ^ 64 ≤ (2 : Nat) ^ 64 ∧
    (parseHexUint64 (toHexString (2 ^ 64)) = .ok (2 ^ 64 % 2 ^ 64) ∧
      2 ^ 64 % 2 ^ 64 ≠ (2 : Nat) ^ 64) :=
  ⟨le_refl _, c2_overflow_truncates (2 ^ 64) (le_refl _)⟩

/-- Claim C8, counterexample: `"-ff"` is unchanged by prefix stripping and
contains the non-hex-digit character `'-'`, yet `parseHexUint64` succeeds
on it (`big.Int.SetString` accepts a leading sign and `Uint64` drops it). -/
theorem c8_counterexample :
    stripHexPrefixChars "-ff".data = "-ff".data ∧
    isHexDigitChar '-' = false ∧
    parseHexUint64 "-ff" = .ok 255 :=
  ⟨rfl, rfl, rfl⟩

/-- Claim C8 as amended: after best-effort prefix stripping, the decoder
fails with the `"invalid hex value"` decode error whenever the remaining
string is not an optional leading sign followed by one or more hex digits
(a non-hex character other than a single leading `+`/`-` sign, or an empty
digit sequence, forces the failure). -/
theorem c8_invalid_hex_fails (s : String)
    (h : validBigIntHex16 (stripHexPrefixChars s.data) = false) :
    parseHexUint64 s = .error (.decode ("invalid hex value: " ++ s)) := by
  have hsome := bigIntSetString16_isSome (stripHexPrefixChars s.data)
  rw [h] at hsome
  have hnone : bigIntSetString16 (stripHexPrefixChars s.data) = none :=
    Option.not_isSome_iff_eq_none.mp (by simp [hsome])
  rw [parseHexUint64, hnone]

/-- Witness for the amended claim C8, at `s = "zz"`. -/
theorem c8_witness :
    validBigIntHex16 (stripHexPrefixChars "zz".data) = false ∧
    parseHexUint64 "zz" = .error (.decode ("invalid hex value: " ++ "zz")) :=
  ⟨rfl, c8_invalid_hex_fails "zz" rfl⟩

/-- Claim C9: decoding the lowercase no-leading-zero hex encoding of any
unsigned 64-bit value — bare, `0x`-prefixed or `0X`-prefixed — returns that
value without error. -/
theorem c9_roundtrip (n : Nat) (h : n < 2 ^ 64) :
    parseHexUint64 (toHexString n) = .ok n ∧
    parseHexUint64 ("0x" ++ toHexString n) = .ok n ∧
    parseHexUint64 ("0X" ++ toHexString n) = .ok n := by
  have hmod := parseHexUint64_toHexString n
  rwa [Nat.mod_eq_of_lt h] at hmod

/-- Witness for claim C9, at `n = 255`. -/
theorem c9_witness :
    (255 : Nat) < 2 ^ 64 ∧
    (parseHexUint64 (toHexString 255) = .ok 255 ∧
      parseHexUint64 ("0x" ++ toHexString 255) = .ok 255 ∧
      parseHexUint64 ("0X" ++ toHexString 255) = .ok 255) :=
  ⟨by norm_num, c9_roundtrip 255 (by norm_num)⟩

/-- Claim C4: whenever the `eth_syncing` result unmarshals as a JSON
boolean — whatever its value, `true` included — `GetSyncStatus` returns
`(syncing = false, progress = none)` without error. -/
theorem c4_bool_result_not_syncing (node : Node) (b : Bool)
    (h : call node "eth_syncing" = .ok (some (.bool b))) :
    GetSyncStatus node = .ok (false, none) := by
  simp [GetSyncStatus, h, unmarshalBoolResult]

/-- Witness for claim C4: a node whose `eth_syncing` result is the bare
boolean `true` is still reported as not syncing. -/
theorem c4_witness : GetSyncStatus boolTrueNode = .ok (false, none) :=
  c4_bool_result_not_syncing boolTrueNode true rfl

/-- Claim C5: whenever the `eth_syncing` result is an object of string
fields, `GetSyncStatus` succeeds with `syncing = true` and a progress record
whose three fields are looked up by name, a field absent from the object
staying `0` rather than being an error. -/
theorem c5_object_result_syncing (node : Node) (fields : List (String × Json))
    (hcall : call node "eth_syncing" = .ok (some (.obj fields)))
    (hstr : fields.all (fun p => (stringMapValue p.2).isSome) = true) :
    GetSyncStatus node = .ok (true, some
      { startingBlock := syncFieldValue (decodedStringMap fields) "startingBlock"
        currentBlock := syncFieldValue (decodedStringMap fields) "currentBlock"
        highestBlock := syncFieldValue (decodedStringMap fields) "highestBlock" }) ∧
    (∀ k, mapLookupLast (decodedStringMap fields) k = none →
      syncFieldValue (decodedStringMap fields) k = 0) := by
  constructor
  · simp [GetSyncStatus, hcall, unmarshalBoolResult, unmarshalStringMapResult, hstr]
  · intro k hk
    simp [syncFieldValue, hk]

/-- Witness for claim C5: the object `{"currentBlock": "0x5"}` yields
`(true, {0, 5, 0})`, and its `startingBlock` key is indeed absent. -/
theorem c5_witness :
    GetSyncStatus syncObjNode = .ok (true, some ⟨0, 5, 0⟩) ∧
    mapLookupLast (decodedStringMap [("currentBlock", .str "0x5")]) "startingBlock"
      = none := by
  have h := c5_object_result_syncing syncObjNode [("currentBlock", Json.str "0x5")] rfl rfl
  refine ⟨?_, rfl⟩
  rw [h.1]
  rfl

/-- Claim C10: a progress field that is present but holds malformed hex does
not make `GetSyncStatus` fail: the decode error is discarded and that field
is reported as `0`, with `syncing` still `true`. -/
theorem c10_malformed_hex_field_zero (node : Node) (fields : List (String × Json))
    (hcall : call node "eth_syncing" = .ok (some (.obj fields)))
    (hstr : fields.all (fun p => (stringMapValue p.2).isSome) = true) :
    ∃ p : SyncProgress, GetSyncStatus node = .ok (true, some p) ∧
      (∀ v e, mapLookupLast (decodedStringMap fields) "startingBlock" = some v →
        parseHexUint64 v = .error e → p.startingBlock = 0) ∧
      (∀ v e, mapLookupLast (decodedStringMap fields) "currentBlock" = some v →
        parseHexUint64 v = .error e → p.currentBlock = 0) ∧
      (∀ v e, mapLookupLast (decodedStringMap fields) "highestBlock" = some v →
        parseHexUint64 v = .error e → p.highestBlock = 0) := by
  refine ⟨{ startingBlock := syncFieldValue (decodedStringMap fields) "startingBlock"
            currentBlock := syncFieldValue (decodedStringMap fields) "currentBlock"
            highestBlock := syncFieldValue (decodedStringMap fields) "highestBlock" },
    ?_, ?_, ?_, ?_⟩
  · simp [GetSyncStatus, hcall, unmarshalBoolResult, unmarshalStringMapResult, hstr]
  all_goals
    intro v e hv he
    simp [syncFieldValue, hv, parseHexOrZero, he]

/-- Witness for claim C10: every field of the object holds the malformed
hex `"zz"`, yet the call succeeds with `(true, {0, 0, 0})`. -/
theorem c10_witness :
    GetSyncStatus badHexNode = .ok (true, some ⟨0, 0, 0⟩) ∧
    parseHexUint64 "zz" = .error (.decode "invalid hex value: zz") := by
  obtain ⟨p, hp, hs, hc, hh⟩ := c10_malformed_hex_field_zero badHexNode
    [("startingBlock", Json.str "zz"), ("currentBlock", Json.str "zz"),
      ("highestBlock", Json.str "zz")] rfl rfl
  have h1 := hs "zz" (.decode "invalid hex value: zz") rfl rfl
  have h2 := hc "zz" (.decode "invalid hex value: zz") rfl rfl
  have h3 := hh "zz" (.decode "invalid hex value: zz") rfl rfl
  refine ⟨?_, rfl⟩
  rw [hp]
  obtain ⟨ps, pc, ph⟩ := p
  simp only at h1 h2 h3
  rw [h1, h2, h3]

/-- Claim C6, counterexample: HTTP 201 is a 2xx status and the body is a
perfectly well-formed envelope, yet `call` does not proceed to envelope
parsing — it fails with the transport-class HTTP-status error (the source
checks `resp.StatusCode != http.StatusOK`, i.e. exactly 200). -/
theorem c6_counterexample :
    (200 ≤ 201 ∧ 201 < 300) ∧
    unmarshalEnvelope (envelopeWith (.str "0x2a")) = some ⟨"2.0", some (.str "0x2a"), none, 1⟩ ∧
    call status201Node "eth_blockNumber" = .error (.transport ("RPC returned HTTP " ++ toString 201)) :=
  ⟨⟨by norm_num, by norm_num⟩, rfl, rfl⟩

/-- Claim C6 as amended: `call` fails with a transport-class error exactly
when the HTTP roundtrip fails as the source judges it — the POST errors,
the body read errors, or the status differs from exactly 200 (so a 2xx
status other than 200 does not reach envelope parsing); and when the status
is 200 but the body is not a well-formed JSON-RPC envelope, `call` fails
with a protocol-class error. -/
theorem c6_transport_iff_roundtrip_failed (node : Node) (method : String) :
    (isTransportFailure (call node method) = httpRoundtripFailed (node.respond method)) ∧
    (∀ parsed, node.respond method = .response 200 (.content parsed) →
      (parsed = none ∨ ∃ j, parsed = some j ∧ unmarshalEnvelope j = none) →
      ∃ m, call node method = .error (.protocol m)) := by
  constructor
  · cases hresp : node.respond method with
    | postError msg => simp [call, hresp, isTransportFailure, httpRoundtripFailed]
    | response status body =>
      cases body with
      | readError msg => simp [call, hresp, isTransportFailure, httpRoundtripFailed]
      | content parsed =>
        by_cases hst : status = 200
        · subst hst
          simp only [call, hresp, httpRoundtripFailed]
          cases parsed with
          | none => simp [isTransportFailure]
          | some j =>
            cases henv : unmarshalEnvelope j with
            | none => simp [henv, isTransportFailure]
            | some env =>
              cases herr : env.error with
              | none => simp [henv, herr, isTransportFailure]
              | some e => simp [henv, herr, isTransportFailure]
        · simp [call, hresp, isTransportFailure, httpRoundtripFailed, hst]
  · intro parsed hresp hbad
    rcases hbad with hnone | ⟨j, hj, henv⟩
    · subst hnone
      exact ⟨"unmarshal response: invalid JSON", by simp [call, hresp]⟩
    · subst hj
      exact ⟨"unmarshal response: type error", by simp [call, hresp, henv]⟩

/-- Witness for the amended claim C6: a 200 response whose body is not
valid JSON is classified as a protocol failure, not a transport failure. -/
theorem c6_witness :
    isTransportFailure (call protocolNode "eth_blockNumber")
      = httpRoundtripFailed (protocolNode.respond "eth_blockNumber") ∧
    ∃ m, call protocolNode "eth_blockNumber" = .error (.protocol m) :=
  ⟨(c6_transport_iff_roundtrip_failed protocolNode "eth_blockNumber").1,
    (c6_transport_iff_roundtrip_failed protocolNode "eth_blockNumber").2 none rfl (Or.inl rfl)⟩

/-- Claim C7: once the envelope is decoded, a non-null `error` field makes
`call` fail with the remote code and message — even when `result` is also
populated — and the raw `result` is returned exactly when `error` is null. -/
theorem c7_error_field_authoritative (node : Node) (method : String) (j : Json)
    (env : JsonRPCResponse)
    (hresp : node.respond method = .response 200 (.content (some j)))
    (henv : unmarshalEnvelope j = some env) :
    (∀ e, env.error = some e → call node method = .error (.rpc e.code e.message)) ∧
    (env.error = none → call node method = .ok env.result) := by
  constructor
  · intro e he
    simp [call, hresp, henv, he]
  · intro he
    simp [call, hresp, henv, he]

/-- Witness for claim C7: an envelope carrying both `result: "0x1"` and
`error: {code: -32000, message: "boom"}` makes `call` fail with the remote
error. -/
theorem c7_witness :
    call bothNode "eth_blockNumber" = .error (.rpc (-32000) "boom") :=
  (c7_error_field_authoritative bothNode "eth_blockNumber" bothJson
    ⟨"", some (.str "0x1"), some ⟨-32000, "boom"⟩, 0⟩ rfl rfl).1 ⟨-32000, "boom"⟩ rfl

/-- Claim C1: in both presentation layers, the availability signal is up
exactly when all three underlying calls succeeded (the collector's `rpc_up`
gauge is 1, the health status is `"ok"`), and a call that succeeds always
delivers its fetched value into the snapshot, whatever the other calls did. -/
theorem c1_rpcUp_iff_all_calls_succeed (node : Node) :
    ((Collect node).up = 1 ↔
      (callSucceeded (GetBlockNumber node) = true ∧
        callSucceeded (GetChainID node) = true ∧
        callSucceeded (GetSyncStatus node) = true)) ∧
    ((healthHandler node).status = "ok" ↔
      (callSucceeded (GetBlockNumber node) = true ∧
        callSucceeded (GetChainID node) = true ∧
        callSucceeded (GetSyncStatus node) = true)) ∧
    (∀ v, GetBlockNumber node = .ok v →
      (Collect node).blockHeight = v ∧ (healthHandler node).blockHeight = v) ∧
    (∀ v, GetChainID node = .ok v →
      (Collect node).chainID = v ∧ (healthHandler node).chainID = v) ∧
    (∀ s p, GetSyncStatus node = .ok (s, p) →
      (Collect node).syncVal = (if s then 1 else 0) ∧
      (healthHandler node).syncing = s ∧ (healthHandler node).syncProgress = p) := by
  rcases hb : GetBlockNumber node with e1 | v1 <;>
    rcases hc : GetChainID node with e2 | v2 <;>
      rcases hs : GetSyncStatus node with e3 | ⟨s, p⟩ <;>
        simp [Collect, healthHandler, callSucceeded, hb, hc, hs]

/-- Witness for claim C1: on a node where all three calls succeed, the
`rpc_up` gauge is 1 and the snapshot carries the fetched block height. -/
theorem c1_witness :
    (Collect allOkNode).up = 1 ∧ (Collect allOkNode).blockHeight = 42 :=
  ⟨((c1_rpcUp_iff_all_calls_succeed allOkNode).1).mpr ⟨rfl, rfl, rfl⟩,
    (((c1_rpcUp_iff_all_calls_succeed allOkNode).2.2.1) 42 rfl).1⟩

/-- Claim C3: for each failing call — block height, chain id or sync
status — the corresponding snapshot field holds its zero value (0, 0, and
`false`/absent respectively), the snapshot is degraded, and a
`(field, error message)` record for that call appears in `perFieldErrors`,
which holds exactly one record per failing call and none per succeeding
call; in particular, when only the block-height call fails, the snapshot
has status degraded (`rpc_up` gauge 0), `blockHeight = 0`, the fetched
`chainId` and `syncing` values, and exactly the one block-height record. -/
theorem c3_partial_failure_policy (node : Node) :
    (∀ e, GetBlockNumber node = .error e →
      (healthHandler node).blockHeight = 0 ∧ (Collect node).blockHeight = 0 ∧
      (healthHandler node).status = "degraded" ∧ (Collect node).up = 0 ∧
      ("block number", failureText e) ∈ perFieldErrors node) ∧
    (∀ e, GetChainID node = .error e →
      (healthHandler node).chainID = 0 ∧ (Collect node).chainID = 0 ∧
      (healthHandler node).status = "degraded" ∧ (Collect node).up = 0 ∧
      ("chain id", failureText e) ∈ perFieldErrors node) ∧
    (∀ e, GetSyncStatus node = .error e →
      (healthHandler node).syncing = false ∧ (healthHandler node).syncProgress = none ∧
      (Collect node).syncVal = 0 ∧
      (healthHandler node).status = "degraded" ∧ (Collect node).up = 0 ∧
      ("sync status", failureText e) ∈ perFieldErrors node) ∧
    ((perFieldErrors node).length
      = (if callSucceeded (GetBlockNumber node) = true then 0 else 1)
        + (if callSucceeded (GetChainID node) = true then 0 else 1)
        + (if callSucceeded (GetSyncStatus node) = true then 0 else 1)) ∧
    (∀ e cid s prog, GetBlockNumber node = .error e → GetChainID node = .ok cid →
      GetSyncStatus node = .ok (s, prog) →
      (healthHandler node).status = "degraded" ∧
      (healthHandler node).blockHeight = 0 ∧
      (healthHandler node).chainID = cid ∧
      (healthHandler node).syncing = s ∧
      (healthHandler node).syncProgress = prog ∧
      (healthHandler node).errorMsg = "block number: " ++ failureText e ∧
      perFieldErrors node = [("block number", failureText e)] ∧
      Collect node = ⟨0, cid, if s then 1 else 0, 0⟩) := by
  rcases hb : GetBlockNumber node with e1 | v1 <;>
    rcases hc : GetChainID node with e2 | v2 <;>
      rcases hs : GetSyncStatus node with e3 | ⟨s1, p1⟩ <;>
        simp [Collect, healthHandler, perFieldErrors, callSucceeded, hb, hc, hs]
  all_goals
    intro e cid
    constructor <;> rintro prog rfl rfl rfl rfl <;> simp

/-- Witness for claim C3: on the node whose three calls all fail, each
field is zeroed and each call's record is present (three records in all);
on the node where only the block-height call fails, the snapshot keeps the
fetched chain id and sync status next to the single block-height record. -/
theorem c3_witness :
    ((healthHandler allFailNode).chainID = 0 ∧
      ("chain id", failureText (.transport ("RPC returned HTTP " ++ toString 500)))
        ∈ perFieldErrors allFailNode) ∧
    ((healthHandler allFailNode).syncing = false ∧
      ("sync status", failureText (.transport ("RPC returned HTTP " ++ toString 500)))
        ∈ perFieldErrors allFailNode) ∧
    (perFieldErrors allFailNode).length = 3 ∧
    ((healthHandler blockFailNode).status = "degraded" ∧
      (healthHandler blockFailNode).blockHeight = 0 ∧
      (healthHandler blockFailNode).chainID = 2345 ∧
      (healthHandler blockFailNode).syncing = false ∧
      (healthHandler blockFailNode).syncProgress = none ∧
      (healthHandler blockFailNode).errorMsg
        = "block number: " ++ failureText (.transport ("RPC returned HTTP " ++ toString 500)) ∧
      perFieldErrors blockFailNode
        = [("block number", failureText (.transport ("RPC returned HTTP " ++ toString 500)))] ∧
      Collect blockFailNode = ⟨0, 2345, if false then 1 else 0, 0⟩) := by
  have hall := c3_partial_failure_policy allFailNode
  have hblock := c3_partial_failure_policy blockFailNode
  have herr : GetChainID allFailNode
      = .error (.transport ("RPC returned HTTP " ++ toString 500)) := rfl
  have herrS : GetSyncStatus allFailNode
      = .error (.transport ("RPC returned HTTP " ++ toString 500)) := rfl
  refine ⟨?_, ?_, ?_, ?_⟩
  · have h := hall.2.1 _ herr
    exact ⟨h.1, h.2.2.2.2⟩
  · have h := hall.2.2.1 _ herrS
    exact ⟨h.1, h.2.2.2.2.2⟩
  · exact hall.2.2.2.1
  · exact hblock.2.2.2.2
      (.transport ("RPC returned HTTP " ++ toString 500)) 2345 false none rfl rfl rfl

end Goat
